import Mathlib

/-!
Verification development for `src/voice_loop.py` (openclaw-voice-loop).

The Python module is shallowly embedded below.  Python strings are
modelled as `List Char` (wrapped in `String` where convenient), Python
floats as exact rationals `ℚ`, machine integers as `Int`/`Nat`, and
fallible Python code as `Except`-valued functions.  External effects
(microphone frames, the agent subprocess, the TTS subprocesses, the
Whisper engine) enter the model as explicit parameters describing the
observable outcome of the external call, exactly mirroring the branching
the source performs on those outcomes.
-/

/-- Session counters: the process-wide globals `turn_count` and
`consecutive_errors` (src/voice_loop.py lines 69-70). -/
structure TurnState where
  turn_count : Nat
  consecutive_errors : Nat
  deriving DecidableEq

/-- The mutation `consecutive_errors += 1` performed in every error
branch of `ask_agent` (lines 176, 184, 195, 200). -/
def incErrors (st : TurnState) : TurnState :=
  { st with consecutive_errors := st.consecutive_errors + 1 }

/-- `SAMPLE_RATE = 16000` (line 49). -/
def SAMPLE_RATE : Nat := 16000

/-- `SILENCE_DURATION = 1.5` seconds (line 51). -/
def SILENCE_DURATION : ℚ := 3 / 2

/-- `MIN_SPEECH_DURATION = 0.5` seconds (line 52). -/
def MIN_SPEECH_DURATION : ℚ := 1 / 2

/-- `MAX_REPLY_CHARS = 500` (line 53). -/
def MAX_REPLY_CHARS : Nat := 500

/-- Characters removed by Python `str.strip()` (ASCII whitespace). -/
def pyIsSpace (c : Char) : Bool :=
  c = ' ' || c = '\t' || c = '\n' || c = '\r' || c = '\x0b' || c = '\x0c'

/-- Python `str.strip()`: drop leading and trailing whitespace. -/
def pyStrip (s : List Char) : List Char :=
  ((s.dropWhile pyIsSpace).reverse.dropWhile pyIsSpace).reverse

/-- Python `str.lower()` restricted to ASCII (all strings the loop
compares against are ASCII). -/
def pyLower (s : List Char) : List Char :=
  s.map Char.toLower

/-- Index of the first element satisfying `p`, or `none`.  Helper for
the embedding of Python `str.rfind` below. -/
def findFirstIdx (p : Char → Bool) : List Char → Option Nat
  | [] => none
  | c :: rest =>
    if p c then some 0 else Option.map (fun i => i + 1) (findFirstIdx p rest)

/-- Python `s.rfind(c)`: highest index of `c` in `s`, or `-1` when `c`
does not occur (used at line 206). -/
def rfindChar (s : List Char) (c : Char) : Int :=
  match findFirstIdx (fun x => x = c) s.reverse with
  | some i => (s.length : Int) - 1 - (i : Int)
  | none => -1

/-- Recursion worker for `removeAll`.  The recursion is structural on
`fuel`; every step consumes at least one character of the string, so
`fuel = s.length` never reaches the `0` fallback (`removeAllAux_fuel`
below proves the result does not depend on any sufficient fuel). -/
def removeAllAux (pat : List Char) : List Char → Nat → List Char
  | [], _ => []
  | c :: rest, 0 => c :: rest
  | c :: rest, fuel + 1 =>
    if pat.isPrefixOf (c :: rest) && !pat.isEmpty then
      removeAllAux pat (rest.drop (pat.length - 1)) fuel
    else
      c :: removeAllAux pat rest fuel

/-- Python `s.replace(pat, "")` for a fixed pattern: remove
non-overlapping occurrences of `pat`, scanning left to right.  (For the
empty pattern Python returns `s` unchanged, which the guard reproduces.) -/
def removeAll (pat : List Char) (s : List Char) : List Char :=
  removeAllAux pat s s.length

/-- Markdown pattern `"**"` (line 213). -/
def pat_bold : List Char := ("**").data

/-- Markdown pattern `"```"` (line 213). -/
def pat_fence : List Char := ("```").data

/-- Markdown pattern `"`"` (line 213). -/
def pat_tick : List Char := ("`").data

/-- Markdown pattern `"- "` (line 213). -/
def pat_dash : List Char := ("- ").data

/-- Markdown pattern `"* "` (line 213). -/
def pat_star : List Char := ("* ").data

/-- Lines 212-214: the five sequential `reply.replace(ch, "")` calls,
in source order. -/
def stripMarkdown (s : List Char) : List Char :=
  removeAll pat_star
    (removeAll pat_dash (removeAll pat_tick (removeAll pat_fence (removeAll pat_bold s))))

/-- Lines 203-210: truncate the reply to `MAX_REPLY_CHARS`, preferring
to cut at the last period when that period sits past
`MAX_REPLY_CHARS // 2`; otherwise hard-cut and append `"..."`. -/
def truncateReply (reply : List Char) : List Char :=
  if reply.length > MAX_REPLY_CHARS then
    let truncated := reply.take MAX_REPLY_CHARS
    let lastPeriod := rfindChar truncated '.'
    if lastPeriod > ((MAX_REPLY_CHARS : Int) / 2) then
      truncated.take (lastPeriod + 1).toNat
    else
      truncated ++ ("...").data
  else
    reply

/-- Exceptions that can escape the parsing code of `ask_agent` (they are
not in the `except (json.JSONDecodeError, KeyError, IndexError)` tuple
at line 198). -/
inductive PyExc where
  | attributeError
  | typeError
  deriving DecidableEq

/-- JSON values, as produced by Python `json.loads`. -/
inductive JValue where
  | null
  | bool (b : Bool)
  | num (q : ℚ)
  | str (s : String)
  | arr (elems : List JValue)
  | obj (fields : List (String × JValue))

/-- Python `v.get(key, default)`: only `dict` has `.get`; every other
value raises `AttributeError` (lines 189-190). -/
def jGet (v : JValue) (key : String) (default : JValue) : Except PyExc JValue :=
  match v with
  | JValue.obj fields => Except.ok ((fields.lookup key).getD default)
  | _ => Except.error PyExc.attributeError

/-- Python iteration `for p in payloads` (line 190): lists iterate their
elements, strings their characters, dicts their keys; other values raise
`TypeError`. -/
def pyIter (v : JValue) : Except PyExc (List JValue) :=
  match v with
  | JValue.arr elems => Except.ok elems
  | JValue.str s => Except.ok (s.data.map (fun c => JValue.str (String.mk [c])))
  | JValue.obj fields => Except.ok (fields.map (fun kv => JValue.str kv.1))
  | _ => Except.error PyExc.typeError

/-- Python truthiness of a JSON value (the `if p.get("text")` filter at
line 190). -/
def jTruthy : JValue → Bool
  | JValue.null => false
  | JValue.bool b => b
  | JValue.num q => if q = 0 then false else true
  | JValue.str s => if s = ("") then false else true
  | JValue.arr elems => !elems.isEmpty
  | JValue.obj fields => !fields.isEmpty

/-- Line 190: `[p.get("text", "") for p in payloads if p.get("text")]`.
Each `p.get` raises `AttributeError` when `p` is not a dict; a kept
element is the (truthy, hence non-default) `"text"` value itself. -/
def collectParts : List JValue → Except PyExc (List JValue)
  | [] => Except.ok []
  | p :: rest =>
    match jGet p ("text") JValue.null with
    | Except.error e => Except.error e
    | Except.ok t =>
      match collectParts rest with
      | Except.error e => Except.error e
      | Except.ok parts => Except.ok (if jTruthy t then t :: parts else parts)

/-- Python `" ".join(...)` raises `TypeError` on any non-string element. -/
def asPyStr : JValue → Except PyExc String
  | JValue.str s => Except.ok s
  | _ => Except.error PyExc.typeError

/-- Line 191: `" ".join(reply_parts)`. -/
def joinParts (parts : List JValue) : Except PyExc String := do
  let strs ← parts.mapM asPyStr
  pure (String.intercalate (" ") strs)

/-- Lines 189-191: extract and join the payload texts from the decoded
JSON value, then strip whitespace.  `Except.error` models an uncaught
Python exception. -/
def parseReply (data : JValue) : Except PyExc String := do
  let resultv ← jGet data ("result") (JValue.obj [])
  let payloadsV ← jGet resultv ("payloads") (JValue.arr [])
  let payloads ← pyIter payloadsV
  let parts ← collectParts payloads
  let joined ← joinParts parts
  pure (String.mk (pyStrip joined.data))

/-- Canned reply for a subprocess timeout (line 177). -/
def cannedTimeout : String := "Sorry, that took too long. Try again."

/-- Canned reply for a non-zero agent exit status (line 185). -/
def cannedError : String := "Sorry, I hit an error. Try again."

/-- Canned reply for an empty concatenated reply (line 196). -/
def cannedEmpty : String := "I processed that but had nothing to say."

/-- Canned reply for a caught parse failure (line 201). -/
def cannedParse : String := "Sorry, something went wrong parsing the response."

/-- Observable outcome of the `subprocess.run` call in `ask_agent`
(lines 164-173): either `subprocess.TimeoutExpired`, or completion with
an exit status and a stdout.  `stdout` is `none` when it is not valid
JSON (then `json.loads` raises the caught `JSONDecodeError`), otherwise
the decoded value. -/
inductive AgentResult where
  | timeout
  | completed (returncode : Int) (stdout : Option JValue)

/-- Lines 149-220: `ask_agent`.  Returns the Python return value (or the
uncaught exception) together with the updated global counters. -/
def ask_agent (r : AgentResult) (st : TurnState) : Except PyExc String × TurnState :=
  match r with
  | AgentResult.timeout => (Except.ok cannedTimeout, incErrors st)
  | AgentResult.completed rc stdout =>
    if rc ≠ 0 then
      (Except.ok cannedError, incErrors st)
    else
      match stdout with
      | none => (Except.ok cannedParse, incErrors st)
      | some data =>
        match parseReply data with
        | Except.error e => (Except.error e, st)
        | Except.ok reply =>
          if reply = ("") then
            (Except.ok cannedEmpty, incErrors st)
          else
            (Except.ok (String.mk (stripMarkdown (truncateReply reply.data))),
              TurnState.mk (st.turn_count + 1) 0)


/-- One classified 100 ms audio chunk: whether its RMS exceeded the
threshold (`rms > threshold`, line 99), and the wall-clock instant
`time.time()` at which the loop processed it. -/
structure Frame where
  speech : Bool
  time : ℚ
  deriving DecidableEq

/-- Lines 95-111: the while-loop of `record_utterance`, driven by the
stream of classified frames.  Arguments mirror the Python locals
`speech_started`, `silence_start` and `audio_chunks`.  `none` means the
supplied frame list ran out before the loop hit `break` (the real
stream is unbounded). -/
def recordLoop : List Frame → Bool → Option ℚ → List Frame → Option (List Frame)
  | [], _, _, _ => none
  | f :: rest, speechStarted, silenceStart, acc =>
    if f.speech then
      recordLoop rest true none (acc ++ [f])
    else if speechStarted then
      match silenceStart with
      | none => recordLoop rest speechStarted (some f.time) (acc ++ [f])
      | some t0 =>
        if f.time - t0 > SILENCE_DURATION then
          some acc
        else
          recordLoop rest speechStarted (some t0) (acc ++ [f])
    else
      recordLoop rest speechStarted silenceStart acc

/-- Lines 85-119: `record_utterance`.  Each chunk holds
`int(SAMPLE_RATE * 0.1) = 1600` samples, so the recorded duration is
`chunks * 1600 / SAMPLE_RATE` seconds (line 114).  The inner `some none`
is Python returning `None` for a too-short utterance (line 118). -/
def record_utterance (frames : List Frame) : Option (Option (List Frame)) :=
  match recordLoop frames false none [] with
  | none => none
  | some chunks =>
    if ((chunks.length : ℚ) * 1600) / (SAMPLE_RATE : ℚ) < MIN_SPEECH_DURATION then
      some none
    else
      some (some chunks)

/-- Lines 73-82: `calibrate_mic`, as a function of the measured ambient
RMS.  `threshold = rms * 3.0; return max(threshold, 0.005)`. -/
def calibrate_mic (rms : ℚ) : ℚ :=
  max (rms * 3) (5 / 1000)

/-- Identifiers of the three TTS backends. -/
inductive Backend where
  | elevenlabs
  | openai
  | macos
  deriving DecidableEq

/-- Observable outcome of one cloud TTS request (the `curl` call and the
subsequent playback steps inside the `try` block of `speak_elevenlabs` /
`speak_openai`): either some step raised an exception, or the request
completed leaving the output file in the given state, after which the
remaining steps (re-encode and `afplay`) may themselves raise. -/
inductive CloudRun where
  | raises
  | produced (fileExists : Bool) (size : Nat) (laterRaises : Bool)

/-- A run of `speak`/its helpers: which backends were invoked, in order,
and whether an exception escaped to the caller. -/
structure SpeakResult where
  attempts : List Backend
  raisesPast : Bool
  deriving DecidableEq

/-- Lines 321-328: `speak_macos` catches `FileNotFoundError` and every
other `Exception`, so it never raises. -/
def speak_macos : SpeakResult :=
  ⟨[Backend.macos], false⟩

/-- Lines 223-279: `speak_elevenlabs`.  A missing or undersized
(`< 1000` bytes) response file, or any exception inside the `try` block,
falls back to `speak_macos` (lines 250-253, 271-273). -/
def speak_elevenlabs (r : CloudRun) : SpeakResult :=
  match r with
  | CloudRun.raises =>
    ⟨Backend.elevenlabs :: speak_macos.attempts, speak_macos.raisesPast⟩
  | CloudRun.produced fileExists size laterRaises =>
    if !fileExists || size < 1000 then
      ⟨Backend.elevenlabs :: speak_macos.attempts, speak_macos.raisesPast⟩
    else if laterRaises then
      ⟨Backend.elevenlabs :: speak_macos.attempts, speak_macos.raisesPast⟩
    else
      ⟨[Backend.elevenlabs], false⟩

/-- Lines 282-316: `speak_openai`, same failure structure as
`speak_elevenlabs` (lines 302-305, 309-311). -/
def speak_openai (r : CloudRun) : SpeakResult :=
  match r with
  | CloudRun.raises =>
    ⟨Backend.openai :: speak_macos.attempts, speak_macos.raisesPast⟩
  | CloudRun.produced fileExists size laterRaises =>
    if !fileExists || size < 1000 then
      ⟨Backend.openai :: speak_macos.attempts, speak_macos.raisesPast⟩
    else if laterRaises then
      ⟨Backend.openai :: speak_macos.attempts, speak_macos.raisesPast⟩
    else
      ⟨[Backend.openai], false⟩

/-- The backend `speak` dispatches to, from the configured API keys
(Python truthiness of env strings: non-empty).  Mirrors the
`if ELEVENLABS_API_KEY / elif OPENAI_API_KEY / else` chain. -/
def chooseBackend (elevenKey openaiKey : String) : Backend :=
  if elevenKey ≠ ("") then Backend.elevenlabs
  else if openaiKey ≠ ("") then Backend.openai
  else Backend.macos

/-- Lines 331-343: `speak` routes to the single highest-priority
configured backend. -/
def speak (elevenKey openaiKey : String) (r : CloudRun) : SpeakResult :=
  if elevenKey ≠ ("") then speak_elevenlabs r
  else if openaiKey ≠ ("") then speak_openai r
  else speak_macos

/-- Observable outcome of the `whisper_model.transcribe(tmp, ...)` call
at line 141: the raw result text, or an exception. -/
inductive EngineOutcome where
  | ok (text : String)
  | raises

/-- Lines 122-146: `transcribe`.  The second component records whether
the temporary file written at lines 132-139 still exists when control
leaves the function.  `os.unlink(tmp)` (line 142) runs only after the
engine call returns; there is no `try`/`finally`, so an engine
exception propagates with the file still on disk. -/
def transcribe (engine : EngineOutcome) : Except Unit String × Bool :=
  match engine with
  | EngineOutcome.raises => (Except.error (), true)
  | EngineOutcome.ok raw => (Except.ok (String.mk (pyStrip raw.data)), false)

/-- Lines 371-378: the two reset checks at the top of every iteration of
the turn loop, in source order. -/
def resetCheck (maxTurns : Nat) (st : TurnState) : TurnState :=
  let st1 := if st.turn_count ≥ maxTurns then TurnState.mk 0 0 else st
  if st1.consecutive_errors ≥ 3 then TurnState.mk 0 0 else st1

/-- Lines 386-390: the hallucination denylist, in source order. -/
def hallucinationList : List String :=
  [(""), ("you"), ("thank you."), ("thanks for watching!"),
   ("thanks for watching."), ("thank you for watching."),
   ("bye."), ("bye"), ("the end."), ("hmm.")]

/-- Line 386: `not text or text.lower().strip() in [...]`. -/
def isDiscardedTranscript (t : String) : Bool :=
  t = ("") || hallucinationList.contains (String.mk (pyStrip (pyLower t.data)))

/-- Per-iteration input of the turn loop, abstracting the recording and
transcription stages: either `record_utterance` returned `None`
(line 381), or it produced audio that transcribed to the given text. -/
inductive IterInput where
  | noAudio
  | transcript (t : String)

/-- Trace of one iteration of the `while True` loop of `main`. -/
structure IterResult where
  /-- The counters at the moment `record_utterance` is invoked. -/
  recordedAt : TurnState
  /-- Whether `ask_agent` was invoked. -/
  agentCalled : Bool
  /-- Whether `speak` was invoked. -/
  spoke : Bool
  /-- The counters at the end of the iteration. -/
  state : TurnState
  deriving DecidableEq

/-- Lines 369-398: one iteration of `main`'s turn loop: reset checks,
then recording, then the transcript quality filter (both discard paths
`continue` without touching the counters), then `ask_agent` and `speak`.
An exception raised out of `ask_agent` is caught by the loop-level
handler, which increments `consecutive_errors` (lines 403-406) and
skips `speak`. -/
def loopIter (maxTurns : Nat) (inp : IterInput) (ar : AgentResult) (st : TurnState) :
    IterResult :=
  let st1 := resetCheck maxTurns st
  match inp with
  | IterInput.noAudio => ⟨st1, false, false, st1⟩
  | IterInput.transcript t =>
    if isDiscardedTranscript t then
      ⟨st1, false, false, st1⟩
    else
      match ask_agent ar st1 with
      | (Except.ok _, st2) => ⟨st1, true, true, st2⟩
      | (Except.error _, st2) => ⟨st1, true, false, incErrors st2⟩

/-- Does `pat` occur (as a contiguous sublist) in `s`? -/
def containsPat (pat : List Char) : List Char → Bool
  | [] => pat.isPrefixOf []
  | c :: rest => pat.isPrefixOf (c :: rest) || containsPat pat rest

/-- A 501-character agent reply with no period and no markdown: concrete
input for the reply-length analysis. -/
def longPlainReply : String := String.mk (List.replicate 501 'a')

/-- An `openclaw agent` run that exits 0 and prints a well-formed JSON
object whose single payload text is `longPlainReply`. -/
def longPlainRun : AgentResult :=
  AgentResult.completed 0 (some (JValue.obj
    [(("result"), JValue.obj [(("payloads"), JValue.arr
      [JValue.obj [(("text"), JValue.str longPlainReply)]])])]))

/-- A 600-character agent reply whose last period sits at index 480:
the truncation example from the specification. -/
def periodAt480Reply : List Char :=
  List.replicate 480 'a' ++ '.' :: List.replicate 119 'b'

/-- Concrete frame sequence: five speech chunks, one silence chunk at
`t = 5` starting the silence timer, one silence chunk at `t = 7` with
elapsed silence `2 > SILENCE_DURATION`, triggering the terminal
transition. -/
def terminalFrames : List Frame :=
  [⟨true, 0⟩, ⟨true, 1⟩, ⟨true, 2⟩, ⟨true, 3⟩, ⟨true, 4⟩, ⟨false, 5⟩, ⟨false, 7⟩]

theorem removeAllAux_length_le (pat : List Char) :
    ∀ (fuel : Nat) (s : List Char), (removeAllAux pat s fuel).length ≤ s.length := by
  intro fuel
  induction fuel with
  | zero =>
    intro s
    cases s <;> simp [removeAllAux]
  | succ n ih =>
    intro s
    cases s with
    | nil => simp [removeAllAux]
    | cons c rest =>
      simp only [removeAllAux]
      split
      · have h := ih (rest.drop (pat.length - 1))
        simp only [List.length_drop, List.length_cons] at h ⊢
        omega
      · simp only [List.length_cons]
        exact Nat.succ_le_succ (ih rest)

theorem removeAll_length_le (pat s : List Char) :
    (removeAll pat s).length ≤ s.length :=
  removeAllAux_length_le pat s.length s

theorem stripMarkdown_length_le (s : List Char) :
    (stripMarkdown s).length ≤ s.length := by
  unfold stripMarkdown
  calc (removeAll pat_star (removeAll pat_dash (removeAll pat_tick
          (removeAll pat_fence (removeAll pat_bold s))))).length
      ≤ (removeAll pat_dash (removeAll pat_tick
          (removeAll pat_fence (removeAll pat_bold s)))).length :=
        removeAll_length_le _ _
    _ ≤ (removeAll pat_tick (removeAll pat_fence (removeAll pat_bold s))).length :=
        removeAll_length_le _ _
    _ ≤ (removeAll pat_fence (removeAll pat_bold s)).length := removeAll_length_le _ _
    _ ≤ (removeAll pat_bold s).length := removeAll_length_le _ _
    _ ≤ s.length := removeAll_length_le _ _

theorem truncateReply_length_le (reply : List Char) :
    (truncateReply reply).length ≤ MAX_REPLY_CHARS + 3 := by
  simp only [truncateReply]
  split
  · split
    · simp only [List.length_take]
      omega
    · simp only [List.length_append, List.length_take, List.length_cons, List.length_nil]
      omega
  · next h =>
    simp only [gt_iff_lt, not_lt] at h
    omega

theorem removeAllAux_fuel (pat : List Char) :
    ∀ (f1 : Nat) (s : List Char) (f2 : Nat), s.length ≤ f1 → s.length ≤ f2 →
      removeAllAux pat s f1 = removeAllAux pat s f2 := by
  intro f1
  induction f1 with
  | zero =>
    intro s f2 h1 _
    have hs : s = [] := List.length_eq_zero.mp (Nat.le_zero.mp h1)
    subst hs
    cases f2 <;> simp [removeAllAux]
  | succ n ih =>
    intro s f2 h1 h2
    cases s with
    | nil => cases f2 <;> simp [removeAllAux]
    | cons c rest =>
      cases f2 with
      | zero => simp at h2
      | succ m =>
        simp only [List.length_cons] at h1 h2
        simp only [removeAllAux]
        split
        · apply ih
          · simp only [List.length_drop]
            omega
          · simp only [List.length_drop]
            omega
        · rw [ih rest m (by omega) (by omega)]

theorem removeAllAux_of_not_contains (pat : List Char) :
    ∀ (fuel : Nat) (s : List Char), containsPat pat s = false →
      removeAllAux pat s fuel = s := by
  intro fuel
  induction fuel with
  | zero =>
    intro s _
    cases s <;> simp [removeAllAux]
  | succ n ih =>
    intro s hs
    cases s with
    | nil => simp [removeAllAux]
    | cons c rest =>
      simp only [containsPat, Bool.or_eq_false_iff] at hs
      simp only [removeAllAux, hs.1, Bool.false_and, Bool.false_eq_true, if_false]
      rw [ih rest hs.2]

theorem removeAll_of_not_contains (pat s : List Char)
    (h : containsPat pat s = false) : removeAll pat s = s :=
  removeAllAux_of_not_contains pat s.length s h

/-- C6 (amended): markdown stripping is idempotent on every input whose
single-strip result contains no occurrence of any of the five markdown
patterns; it is not idempotent in general (see
`stripMarkdown_not_idempotent`). -/
theorem stripMarkdown_twice_eq_once_of_clean (s : List Char)
    (h1 : containsPat pat_bold (stripMarkdown s) = false)
    (h2 : containsPat pat_fence (stripMarkdown s) = false)
    (h3 : containsPat pat_tick (stripMarkdown s) = false)
    (h4 : containsPat pat_dash (stripMarkdown s) = false)
    (h5 : containsPat pat_star (stripMarkdown s) = false) :
    stripMarkdown (stripMarkdown s) = stripMarkdown s := by
  show removeAll pat_star (removeAll pat_dash (removeAll pat_tick (removeAll pat_fence
      (removeAll pat_bold (stripMarkdown s))))) = stripMarkdown s
  rw [removeAll_of_not_contains _ _ h1, removeAll_of_not_contains _ _ h2,
    removeAll_of_not_contains _ _ h3, removeAll_of_not_contains _ _ h4,
    removeAll_of_not_contains _ _ h5]

theorem stripMarkdown_twice_eq_once_of_clean_witness :
    stripMarkdown (stripMarkdown (("**hello** world").data))
      = stripMarkdown (("**hello** world").data) :=
  stripMarkdown_twice_eq_once_of_clean (("**hello** world").data)
    (by decide) (by decide) (by decide) (by decide) (by decide)

/-- Counterexample to C6 as stated: stripping the inline-code markers of
the string below creates a fresh bold marker, so a second strip removes
more.  Stripping once yields two characters, stripping twice yields the
empty string. -/
theorem stripMarkdown_not_idempotent :
    stripMarkdown (stripMarkdown (("*`*").data)) ≠ stripMarkdown (("*`*").data) := by
  decide

/-- C4 (amended): every string `ask_agent` returns — canned or shaped —
has length at most `MAX_REPLY_CHARS + 3`; the `"..."` marker appended on
a hard cut may exceed the configured budget by up to three characters. -/
theorem ask_agent_reply_length (r : AgentResult) (st : TurnState) (s : String)
    (h : (ask_agent r st).1 = Except.ok s) : s.length ≤ MAX_REPLY_CHARS + 3 := by
  cases r with
  | timeout =>
    simp only [ask_agent] at h
    injection h with h'
    subst h'
    decide
  | completed rc stdout =>
    simp only [ask_agent] at h
    split at h
    · injection h with h'
      subst h'
      decide
    · match stdout with
      | none =>
        injection h with h'
        subst h'
        decide
      | some data =>
        simp only at h
        cases hp : parseReply data with
        | error e => rw [hp] at h; cases h
        | ok reply =>
          rw [hp] at h
          simp only at h
          split at h
          · injection h with h'
            subst h'
            decide
          · injection h with h'
            subst h'
            show (stripMarkdown (truncateReply reply.data)).length ≤ MAX_REPLY_CHARS + 3
            exact le_trans (stripMarkdown_length_le _) (truncateReply_length_le _)

theorem ask_agent_reply_length_witness : (("hi") : String).length ≤ MAX_REPLY_CHARS + 3 :=
  ask_agent_reply_length
    (AgentResult.completed 0 (some (JValue.obj
      [(("result"), JValue.obj [(("payloads"), JValue.arr
        [JValue.obj [(("text"), JValue.str ("hi"))]])])])))
    ⟨0, 0⟩ ("hi") rfl

set_option maxRecDepth 10000 in
/-- Counterexample to C4 as stated: a 501-character reply with no period
is hard-cut to 500 characters plus `"..."`, so `ask_agent` returns 503
characters, exceeding `MAX_REPLY_CHARS`. -/
theorem ask_agent_reply_exceeds_budget :
    (ask_agent longPlainRun ⟨0, 0⟩).1
        = Except.ok (String.mk (List.replicate 500 'a' ++ ("...").data)) ∧
      MAX_REPLY_CHARS < (String.mk (List.replicate 500 'a' ++ ("...").data)).length :=
  ⟨rfl, by decide⟩

/-- C9: for every ambient RMS value `r`, `calibrate_mic` returns
`max(3 r, 0.005)`; the result is never below the floor `0.005`, and a
perfectly silent calibration (`r = 0`) yields exactly the floor. -/
theorem calibrate_mic_spec (r : ℚ) :
    calibrate_mic r = max (3 * r) (5 / 1000) ∧
      (5 / 1000 : ℚ) ≤ calibrate_mic r ∧ calibrate_mic 0 = 5 / 1000 := by
  refine ⟨by rw [calibrate_mic, mul_comm], ?_, by norm_num [calibrate_mic]⟩
  rw [calibrate_mic]
  exact le_max_right _ _

/-- C7: when the Whisper call raises, `transcribe` propagates the
exception while the temporary file is still on disk — `os.unlink` is
reached only on the non-raising path, contradicting the claimed
guaranteed cleanup. -/
theorem transcribe_leaks_on_engine_failure :
    transcribe EngineOutcome.raises = (Except.error (), true) := rfl

theorem speak_elevenlabs_attempts (r : CloudRun) :
    (speak_elevenlabs r).raisesPast = false ∧
      ((speak_elevenlabs r).attempts = [Backend.elevenlabs] ∨
        (speak_elevenlabs r).attempts = [Backend.elevenlabs, Backend.macos]) := by
  cases r with
  | raises => exact ⟨rfl, Or.inr rfl⟩
  | produced fe sz lr =>
    simp only [speak_elevenlabs]
    split
    · exact ⟨rfl, Or.inr rfl⟩
    · split
      · exact ⟨rfl, Or.inr rfl⟩
      · exact ⟨rfl, Or.inl rfl⟩

theorem speak_openai_attempts (r : CloudRun) :
    (speak_openai r).raisesPast = false ∧
      ((speak_openai r).attempts = [Backend.openai] ∨
        (speak_openai r).attempts = [Backend.openai, Backend.macos]) := by
  cases r with
  | raises => exact ⟨rfl, Or.inr rfl⟩
  | produced fe sz lr =>
    simp only [speak_openai]
    split
    · exact ⟨rfl, Or.inr rfl⟩
    · split
      · exact ⟨rfl, Or.inr rfl⟩
      · exact ⟨rfl, Or.inl rfl⟩

theorem speak_elevenlabs_fallback (fe : Bool) (sz : Nat) (lr : Bool)
    (h : fe = false ∨ sz < 1000) :
    speak_elevenlabs (CloudRun.produced fe sz lr)
      = ⟨[Backend.elevenlabs, Backend.macos], false⟩ := by
  have hc : (!fe || decide (sz < 1000)) = true := by
    cases h with
    | inl h => subst h; simp
    | inr h => simp [h]
  simp [speak_elevenlabs, speak_macos, hc]

theorem speak_openai_fallback (fe : Bool) (sz : Nat) (lr : Bool)
    (h : fe = false ∨ sz < 1000) :
    speak_openai (CloudRun.produced fe sz lr)
      = ⟨[Backend.openai, Backend.macos], false⟩ := by
  have hc : (!fe || decide (sz < 1000)) = true := by
    cases h with
    | inl h => subst h; simp
    | inr h => simp [h]
  simp [speak_openai, speak_macos, hc]

/-- C8: `speak` never lets an exception escape, invokes exactly the
highest-priority configured backend (optionally followed by the local
`say` fallback, never by the other cloud backend), and whenever the
chosen cloud backend leaves a missing or undersized (`< 1000` bytes)
output file, the local fallback is invoked. -/
theorem speak_single_backend (elevenKey openaiKey : String) (r : CloudRun) :
    (speak elevenKey openaiKey r).raisesPast = false ∧
      ((speak elevenKey openaiKey r).attempts = [chooseBackend elevenKey openaiKey] ∨
        (speak elevenKey openaiKey r).attempts
          = [chooseBackend elevenKey openaiKey, Backend.macos]) ∧
      (∀ fileExists size laterRaises,
        r = CloudRun.produced fileExists size laterRaises →
        fileExists = false ∨ size < 1000 →
        chooseBackend elevenKey openaiKey ≠ Backend.macos →
        (speak elevenKey openaiKey r).attempts
          = [chooseBackend elevenKey openaiKey, Backend.macos]) := by
  unfold speak chooseBackend
  split
  · refine ⟨(speak_elevenlabs_attempts r).1, (speak_elevenlabs_attempts r).2, ?_⟩
    intro fe sz lr hr hsize _
    subst hr
    rw [speak_elevenlabs_fallback fe sz lr hsize]
  · split
    · refine ⟨(speak_openai_attempts r).1, (speak_openai_attempts r).2, ?_⟩
      intro fe sz lr hr hsize _
      subst hr
      rw [speak_openai_fallback fe sz lr hsize]
    · refine ⟨rfl, Or.inl rfl, ?_⟩
      intro fe sz lr hr hsize hmac
      exact absurd rfl hmac

theorem speak_single_backend_witness :
    (speak ("k") ("") (CloudRun.produced true 0 false)).attempts
      = [Backend.elevenlabs, Backend.macos] := by
  have h := (speak_single_backend ("k") ("") (CloudRun.produced true 0 false)).2.2
  exact h true 0 false rfl (Or.inr (by decide)) (by decide)

theorem loopIter_recordedAt (m : Nat) (inp : IterInput) (ar : AgentResult)
    (st : TurnState) : (loopIter m inp ar st).recordedAt = resetCheck m st := by
  cases inp with
  | noAudio => rfl
  | transcript t =>
    by_cases hd : isDiscardedTranscript t = true
    · simp [loopIter, hd]
    · simp only [loopIter, hd, if_false, Bool.false_eq_true]
      rcases hask : ask_agent ar (resetCheck m st) with ⟨res, st2⟩
      cases res <;> simp [hask]

theorem resetCheck_spec (maxTurns : Nat) (st : TurnState) (hpos : 0 < maxTurns) :
    (resetCheck maxTurns st).turn_count < maxTurns ∧
      (resetCheck maxTurns st).consecutive_errors < 3 ∧
      ((maxTurns ≤ st.turn_count ∨ 3 ≤ st.consecutive_errors) →
        resetCheck maxTurns st = TurnState.mk 0 0) := by
  simp only [resetCheck]
  by_cases h1 : st.turn_count ≥ maxTurns
  · rw [if_pos h1, if_neg (show ¬(TurnState.mk 0 0).consecutive_errors ≥ 3 by decide)]
    exact ⟨hpos, by decide, fun _ => rfl⟩
  · rw [if_neg h1]
    by_cases h2 : st.consecutive_errors ≥ 3
    · rw [if_pos h2]
      exact ⟨hpos, by decide, fun _ => rfl⟩
    · rw [if_neg h2]
      refine ⟨by omega, by omega, fun hor => ?_⟩
      cases hor with
      | inl h => exact absurd h h1
      | inr h => exact absurd h h2

/-- C2: in every loop iteration the reset checks run before recording:
at the moment `record_utterance` is invoked, `turn_count < MAX_TURNS`
and `consecutive_errors < 3` hold (for any positive `MAX_TURNS`), and if
the previous iteration left `turn_count ≥ MAX_TURNS` or
`consecutive_errors ≥ 3`, both counters are 0 at that moment. -/
theorem reset_before_record (maxTurns : Nat) (inp : IterInput) (ar : AgentResult)
    (st : TurnState) (hpos : 0 < maxTurns) :
    (loopIter maxTurns inp ar st).recordedAt.turn_count < maxTurns ∧
      (loopIter maxTurns inp ar st).recordedAt.consecutive_errors < 3 ∧
      ((maxTurns ≤ st.turn_count ∨ 3 ≤ st.consecutive_errors) →
        (loopIter maxTurns inp ar st).recordedAt = TurnState.mk 0 0) := by
  simp only [loopIter_recordedAt]
  exact resetCheck_spec maxTurns st hpos

theorem reset_before_record_witness :
    (loopIter 50 IterInput.noAudio AgentResult.timeout ⟨50, 2⟩).recordedAt
      = TurnState.mk 0 0 :=
  (reset_before_record 50 IterInput.noAudio AgentResult.timeout ⟨50, 2⟩
    (by decide)).2.2 (Or.inl (by decide))

theorem resetCheck_id (maxTurns : Nat) (st : TurnState)
    (h1 : st.turn_count < maxTurns) (h2 : st.consecutive_errors < 3) :
    resetCheck maxTurns st = st := by
  simp only [resetCheck]
  rw [if_neg (show ¬ st.turn_count ≥ maxTurns by omega)]
  rw [if_neg (show ¬ st.consecutive_errors ≥ 3 by omega)]

/-- C10: when an iteration discards its input for quality reasons —
`record_utterance` returned `None`, or the transcript is empty or on the
hallucination denylist — `ask_agent` and `speak` are not invoked, the
final counters equal the counters at recording time, and (whenever the
loop invariant `turn_count < MAX_TURNS ∧ consecutive_errors < 3` held on
entry) both counters are left exactly unchanged. -/
theorem discard_skips_agent (maxTurns : Nat) (ar : AgentResult) (st : TurnState)
    (inp : IterInput)
    (h : inp = IterInput.noAudio ∨
      ∃ t, inp = IterInput.transcript t ∧ isDiscardedTranscript t = true) :
    (loopIter maxTurns inp ar st).agentCalled = false ∧
      (loopIter maxTurns inp ar st).spoke = false ∧
      (loopIter maxTurns inp ar st).state = (loopIter maxTurns inp ar st).recordedAt ∧
      (st.turn_count < maxTurns → st.consecutive_errors < 3 →
        (loopIter maxTurns inp ar st).state = st) := by
  have hstate : loopIter maxTurns inp ar st
      = ⟨resetCheck maxTurns st, false, false, resetCheck maxTurns st⟩ := by
    rcases h with h | ⟨t, ht, hd⟩
    · subst h
      rfl
    · subst ht
      simp [loopIter, hd]
  rw [hstate]
  exact ⟨rfl, rfl, rfl, fun h1 h2 => resetCheck_id maxTurns st h1 h2⟩

theorem discard_skips_agent_witness :
    (loopIter 50 (IterInput.transcript ("Thank You.")) AgentResult.timeout ⟨1, 1⟩).state
      = ⟨1, 1⟩ :=
  (discard_skips_agent 50 AgentResult.timeout ⟨1, 1⟩
    (IterInput.transcript ("Thank You."))
    (Or.inr ⟨("Thank You."), rfl, by decide⟩)).2.2.2 (by decide) (by decide)

/-- C5 (amended): when a silence frame arrives in the trailing-silence
state with elapsed silence strictly greater than `SILENCE_DURATION`, the
recorder stops and returns the accumulated sequence without appending
that final frame (the `break` at line 108 precedes the append at
line 111). -/
theorem recordLoop_terminal_drops_frame (f : Frame) (rest : List Frame) (t0 : ℚ)
    (acc : List Frame) (hspeech : f.speech = false)
    (helapsed : SILENCE_DURATION < f.time - t0) :
    recordLoop (f :: rest) true (some t0) acc = some acc := by
  simp only [recordLoop, hspeech, Bool.false_eq_true, if_false, if_true]
  rw [if_pos helapsed]

theorem recordLoop_terminal_drops_frame_witness :
    recordLoop [⟨false, 2⟩] true (some 0) [⟨true, 0⟩] = some [⟨true, 0⟩] :=
  recordLoop_terminal_drops_frame ⟨false, 2⟩ [] 0 [⟨true, 0⟩] rfl
    (by norm_num [SILENCE_DURATION])

/-- Counterexample to C5 as stated: on `terminalFrames` the recorder
returns only the first six chunks; the terminal silence frame at
`t = 7` is not part of the returned utterance. -/
theorem record_utterance_excludes_final_frame :
    record_utterance terminalFrames = some (some (terminalFrames.take 6)) ∧
      Frame.mk false 7 ∉ terminalFrames.take 6 := by
  constructor
  · norm_num [record_utterance, recordLoop, terminalFrames, SILENCE_DURATION,
      MIN_SPEECH_DURATION, SAMPLE_RATE]
  · decide

theorem findFirstIdx_some (p : Char → Bool) :
    ∀ (l : List Char) (k : Nat), findFirstIdx p l = some k →
      k < l.length ∧ ∃ a, l.get? k = some a ∧ p a = true := by
  intro l
  induction l with
  | nil => intro k h; cases h
  | cons c rest ih =>
    intro k h
    simp only [findFirstIdx] at h
    split at h
    · next hp =>
      injection h with h'
      subst h'
      exact ⟨by simp, c, rfl, hp⟩
    · cases hrec : findFirstIdx p rest with
      | none => rw [hrec] at h; cases h
      | some j =>
        rw [hrec] at h
        simp only [Option.map] at h
        injection h with h'
        subst h'
        obtain ⟨hlt, a, ha, hpa⟩ := ih j hrec
        refine ⟨by simpa using Nat.succ_lt_succ hlt, a, ha, hpa⟩

theorem findFirstIdx_some_of (p : Char → Bool) :
    ∀ (l : List Char) (k : Nat) (a : Char), l.get? k = some a → p a = true →
      (∀ j b, j < k → l.get? j = some b → p b = false) →
      findFirstIdx p l = some k := by
  intro l
  induction l with
  | nil => intro k a ha _ _; cases ha
  | cons c rest ih =>
    intro k a ha hpa hbefore
    cases k with
    | zero =>
      injection ha with h'
      subst h'
      simp only [findFirstIdx, hpa, if_true]
    | succ j =>
      have hc : p c = false := hbefore 0 c (Nat.succ_pos j) rfl
      simp only [findFirstIdx, hc, Bool.false_eq_true, if_false]
      have hrec := ih j a ha hpa
        (fun i b hi hb => hbefore (i + 1) b (Nat.succ_lt_succ hi) hb)
      rw [hrec]
      rfl

theorem rfindChar_eq_of_last (s : List Char) (c : Char) (k : Nat)
    (hk : s.get? k = some c)
    (hafter : ∀ j, k < j → j < s.length → s.get? j ≠ some c) :
    rfindChar s c = (k : Int) := by
  have hklen : k < s.length := by
    rcases List.get?_eq_some.mp hk with ⟨hlt, _⟩
    exact hlt
  have hidx : s.length - 1 - (s.length - 1 - k) = k := by omega
  have hrev : s.reverse.get? (s.length - 1 - k) = some c := by
    rw [List.get?_reverse (by omega), hidx]
    exact hk
  have hfind : findFirstIdx (fun x => x = c) s.reverse = some (s.length - 1 - k) := by
    apply findFirstIdx_some_of _ _ _ c hrev (by simp)
    intro j b hj hb
    have hjlen : j < s.length := by omega
    rw [List.get?_reverse (by omega)] at hb
    have hgt : k < s.length - 1 - j := by omega
    have hlt : s.length - 1 - j < s.length := by omega
    have hne := hafter (s.length - 1 - j) hgt hlt
    simp only [decide_eq_false_iff_not]
    intro hbc
    subst hbc
    exact hne hb
  unfold rfindChar
  rw [hfind]
  show (s.length : Int) - 1 - ((s.length - 1 - k : Nat) : Int) = (k : Int)
  omega

/-- C3: for every reply longer than the 500-character budget, if the
last period among the first `MAX_REPLY_CHARS` characters sits strictly
past `MAX_REPLY_CHARS / 2`, truncation returns exactly the prefix ending
at that period (index `i` yields `i + 1` characters); otherwise it
returns the first `MAX_REPLY_CHARS` characters with `"..."` appended. -/
theorem truncation_last_period (reply : List Char) (h : MAX_REPLY_CHARS < reply.length) :
    (∀ i : Nat, (reply.take MAX_REPLY_CHARS).get? i = some '.' →
      (∀ j, j < MAX_REPLY_CHARS → i < j →
        (reply.take MAX_REPLY_CHARS).get? j ≠ some '.') →
      MAX_REPLY_CHARS / 2 < i →
      truncateReply reply = reply.take (i + 1)) ∧
    ((∀ j, j < MAX_REPLY_CHARS → MAX_REPLY_CHARS / 2 < j →
        (reply.take MAX_REPLY_CHARS).get? j ≠ some '.') →
      truncateReply reply = reply.take MAX_REPLY_CHARS ++ ("...").data) := by
  have htlen : (reply.take MAX_REPLY_CHARS).length = MAX_REPLY_CHARS := by
    simp only [List.length_take]
    omega
  have hM : 0 < MAX_REPLY_CHARS := by decide
  constructor
  · intro i hi hnolater hhalf
    have hilen : i < MAX_REPLY_CHARS := by
      rcases List.get?_eq_some.mp hi with ⟨hlt, _⟩
      omega
    have hrf : rfindChar (reply.take MAX_REPLY_CHARS) '.' = (i : Int) := by
      apply rfindChar_eq_of_last _ _ i hi
      intro j hij hjlen
      exact hnolater j (by omega) hij
    have htn : (((i : Int)) + 1).toNat = i + 1 := by omega
    simp only [truncateReply]
    rw [if_pos h, hrf,
      if_pos (show ((i : Int)) > (MAX_REPLY_CHARS : Int) / 2 by omega),
      htn, List.take_take]
    congr 1
    omega
  · intro hno
    simp only [truncateReply]
    rw [if_pos h]
    cases hfi : findFirstIdx (fun x => x = '.') (reply.take MAX_REPLY_CHARS).reverse with
    | none =>
      have hrf : rfindChar (reply.take MAX_REPLY_CHARS) '.' = -1 := by
        unfold rfindChar
        rw [hfi]
      rw [hrf, if_neg (show ¬((-1 : Int) > (MAX_REPLY_CHARS : Int) / 2) by omega)]
    | some m =>
      obtain ⟨hmlen, a, ha, hpa⟩ := findFirstIdx_some _ _ _ hfi
      have ha' : a = '.' := by simpa using hpa
      subst ha'
      rw [List.length_reverse, htlen] at hmlen
      rw [List.get?_reverse (by rw [htlen]; exact hmlen), htlen] at ha
      have hj0 : MAX_REPLY_CHARS - 1 - m ≤ MAX_REPLY_CHARS / 2 := by
        by_contra hgt
        push_neg at hgt
        exact hno _ (by omega) hgt ha
      have hrf : rfindChar (reply.take MAX_REPLY_CHARS) '.'
          = (MAX_REPLY_CHARS : Int) - 1 - (m : Int) := by
        unfold rfindChar
        rw [hfi, htlen]
      rw [hrf, if_neg (show ¬((MAX_REPLY_CHARS : Int) - 1 - (m : Int)
        > (MAX_REPLY_CHARS : Int) / 2) by omega)]

set_option maxRecDepth 100000 in
theorem truncation_last_period_witness :
    truncateReply periodAt480Reply = periodAt480Reply.take 481 :=
  (truncation_last_period periodAt480Reply (by decide)).1 480 (by decide)
    (by decide) (by decide)

/-- C1 (amended): `ask_agent` never raises for — and returns the fixed
canned reply while incrementing `consecutive_errors` and leaving
`turn_count` unchanged on — subprocess timeout, non-zero exit status,
invalid-JSON stdout, and an empty concatenated reply (each case pinned
by an exact equation); a successful non-empty reply returns the shaped
text with `turn_count` incremented by exactly 1 and
`consecutive_errors` reset to 0; and every string it returns is either
one of the four canned replies (with `consecutive_errors` incremented
and `turn_count` unchanged) or a shaped success reply.  However,
structured output of unexpected shape (handled by the
`AttributeError`/`TypeError` paths of the parse pipeline, which the
`except` clause at line 198 does not catch) raises past `ask_agent`,
leaving both counters unchanged. -/
theorem ask_agent_state_discipline (r : AgentResult) (st : TurnState) :
    (ask_agent AgentResult.timeout st
        = (Except.ok cannedTimeout, TurnState.mk st.turn_count (st.consecutive_errors + 1))) ∧
      (∀ rc stdout, rc ≠ 0 → ask_agent (AgentResult.completed rc stdout) st
        = (Except.ok cannedError, TurnState.mk st.turn_count (st.consecutive_errors + 1))) ∧
      (ask_agent (AgentResult.completed 0 none) st
        = (Except.ok cannedParse, TurnState.mk st.turn_count (st.consecutive_errors + 1))) ∧
      (∀ data, parseReply data = Except.ok ("") →
        ask_agent (AgentResult.completed 0 (some data)) st
          = (Except.ok cannedEmpty, TurnState.mk st.turn_count (st.consecutive_errors + 1))) ∧
      (∀ data reply, parseReply data = Except.ok reply → reply ≠ ("") →
        ask_agent (AgentResult.completed 0 (some data)) st
          = (Except.ok (String.mk (stripMarkdown (truncateReply reply.data))),
              TurnState.mk (st.turn_count + 1) 0)) ∧
      (∀ s, (ask_agent r st).1 = Except.ok s →
        ((ask_agent r st).2 = TurnState.mk st.turn_count (st.consecutive_errors + 1) ∧
          (s = cannedTimeout ∨ s = cannedError ∨ s = cannedParse ∨ s = cannedEmpty)) ∨
        (ask_agent r st).2 = TurnState.mk (st.turn_count + 1) 0) ∧
      (∀ e, (ask_agent r st).1 = Except.error e → (ask_agent r st).2 = st) := by
  refine ⟨rfl, ?_, rfl, ?_, ?_, ?_, ?_⟩
  · intro rc stdout hrc
    simp only [ask_agent]
    rw [if_pos hrc]
    rfl
  · intro data hp
    simp only [ask_agent, if_neg (show ¬(0 : Int) ≠ 0 by simp)]
    rw [hp]
    dsimp only
    rw [if_pos rfl]
    rfl
  · intro data reply hp hne
    simp only [ask_agent, if_neg (show ¬(0 : Int) ≠ 0 by simp)]
    rw [hp]
    dsimp only
    rw [if_neg hne]
  · intro s hs
    cases r with
    | timeout =>
      simp only [ask_agent] at hs ⊢
      injection hs with h'
      subst h'
      exact Or.inl ⟨rfl, Or.inl rfl⟩
    | completed rc stdout =>
      by_cases hrc : rc = 0
      · subst hrc
        simp only [ask_agent, if_neg (show ¬(0 : Int) ≠ 0 by simp)] at hs ⊢
        match stdout with
        | none =>
          injection hs with h'
          subst h'
          exact Or.inl ⟨rfl, Or.inr (Or.inr (Or.inl rfl))⟩
        | some data =>
          dsimp only at hs ⊢
          cases hp : parseReply data with
          | error e =>
            rw [hp] at hs
            dsimp only at hs
            cases hs
          | ok reply =>
            rw [hp] at hs
            dsimp only at hs ⊢
            by_cases hempty : reply = ("")
            · rw [if_pos hempty] at hs ⊢
              dsimp only at hs ⊢
              injection hs with h'
              subst h'
              exact Or.inl ⟨rfl, Or.inr (Or.inr (Or.inr rfl))⟩
            · rw [if_neg hempty] at hs ⊢
              dsimp only at hs ⊢
              exact Or.inr rfl
      · simp only [ask_agent, if_pos hrc] at hs ⊢
        injection hs with h'
        subst h'
        exact Or.inl ⟨rfl, Or.inr (Or.inl rfl)⟩
  · intro e he
    cases r with
    | timeout =>
      simp only [ask_agent] at he
      cases he
    | completed rc stdout =>
      by_cases hrc : rc = 0
      · subst hrc
        simp only [ask_agent, if_neg (show ¬(0 : Int) ≠ 0 by simp)] at he ⊢
        match stdout with
        | none => cases he
        | some data =>
          dsimp only at he ⊢
          cases hp : parseReply data with
          | error e2 => rfl
          | ok reply =>
            rw [hp] at he
            dsimp only at he
            by_cases hempty : reply = ("")
            · rw [if_pos hempty] at he
              dsimp only at he
              cases he
            · rw [if_neg hempty] at he
              dsimp only at he
              cases he
      · simp only [ask_agent, if_pos hrc] at he
        cases he

theorem ask_agent_state_discipline_witness :
    ask_agent (AgentResult.completed 1 none) ⟨2, 1⟩
        = (Except.ok cannedError, TurnState.mk 2 2) ∧
      ask_agent (AgentResult.completed 0 (some (JValue.obj
          [(("result"), JValue.obj [(("payloads"), JValue.arr [])])]))) ⟨2, 1⟩
        = (Except.ok cannedEmpty, TurnState.mk 2 2) ∧
      ask_agent (AgentResult.completed 0 (some (JValue.obj
          [(("result"), JValue.obj [(("payloads"), JValue.arr
            [JValue.obj [(("text"), JValue.str ("hi"))]])])]))) ⟨2, 1⟩
        = (Except.ok ("hi"), TurnState.mk 3 0) ∧
      (((ask_agent AgentResult.timeout ⟨2, 1⟩).2 = TurnState.mk 2 2 ∧
          (cannedTimeout = cannedTimeout ∨ cannedTimeout = cannedError ∨
            cannedTimeout = cannedParse ∨ cannedTimeout = cannedEmpty)) ∨
        (ask_agent AgentResult.timeout ⟨2, 1⟩).2 = TurnState.mk 3 0) :=
  ⟨(ask_agent_state_discipline AgentResult.timeout ⟨2, 1⟩).2.1 1 none (by decide),
   (ask_agent_state_discipline AgentResult.timeout ⟨2, 1⟩).2.2.2.1
     (JValue.obj [(("result"), JValue.obj [(("payloads"), JValue.arr [])])]) rfl,
   (ask_agent_state_discipline AgentResult.timeout ⟨2, 1⟩).2.2.2.2.1
     (JValue.obj [(("result"), JValue.obj [(("payloads"), JValue.arr
       [JValue.obj [(("text"), JValue.str ("hi"))]])])]) ("hi") rfl (by decide),
   (ask_agent_state_discipline AgentResult.timeout ⟨2, 1⟩).2.2.2.2.2.1 cannedTimeout rfl⟩

/-- Counterexample to C1 as stated: exit status 0 with stdout `[]`
(valid JSON, but a list, which has no `.get`) raises an uncaught
`AttributeError` past `ask_agent` instead of producing a canned reply;
the counters are left untouched. -/
theorem ask_agent_raises_on_array_stdout :
    ask_agent (AgentResult.completed 0 (some (JValue.arr []))) ⟨0, 0⟩
      = (Except.error PyExc.attributeError, ⟨0, 0⟩) := rfl
